import Mathlib

/-!
Verification of the GameCanvas simulation core (patrol-enemy variant) of the
masonic_MM_education repository.

The per-frame game loop, its trigger engine and its state machine are embedded
shallowly: coordinates and velocities are exact rationals (the source uses JS
numbers; every claim checked here is about the algorithm's comparisons and
record updates, which coincide), React state plus the mutable refs that mirror
it collapse into one explicit `GState` record (the source keeps them in sync),
and the two sources of randomness (the grave-question draw and the
display-only answer shuffle) are modelled by an index parameter respectively
omitted (the shuffled answer list is render-only and never read back by the
simulation).  The circular orb-proximity test compares squared distances,
which embeds the source's `sqrt(dx*dx+dy*dy) < r` exactly because the radius
sum `orb.radius + player.width/2 + 8` is positive for all level data.
-/

/-- Top-level game mode (`GameState` in the source). -/
inductive GameState where
  | START | PLAYING | PAUSED | GRAVE | VICTORY
deriving DecidableEq, Repr

/-- Modal overlay sub-state (`modalState` in the source). -/
inductive ModalState where
  | NONE | LORE | QUIZ
deriving DecidableEq, Repr

/-- Result of an answered grave question (`graveResult`). -/
inductive GraveResult where
  | correct | incorrect
deriving DecidableEq, Repr

/-- The player record (`playerRef.current`). -/
structure Player where
  x : ℚ
  y : ℚ
  width : ℚ
  height : ℚ
  vx : ℚ
  vy : ℚ
  isGrounded : Bool
  facing : Int
  jumpCount : Nat
  coyoteTimer : Nat
deriving DecidableEq, Repr

/-- A static collision platform, with its world-space `y` already derived from
the ground reference line (`platformsRef.current`). -/
structure Platform where
  x : ℚ
  y : ℚ
  width : ℚ
  height : ℚ
  color : String
  ptype : String
deriving DecidableEq, Repr

/-- An orb definition from the level data (`ORB_DATA` entries); its world `y`
and its `active` flag are recomputed every tick. -/
structure Orb where
  id : Nat
  x : ℚ
  yOffset : ℚ
  radius : ℚ
  questionId : Option Nat
  name : String
  spriteKey : String
  blurb : String
  points : Option Nat
deriving DecidableEq, Repr

/-- A quiz question (review or ritual pool). -/
structure Question where
  id : Nat
  text : String
  answers : List String
  correctAnswer : String
  category : String
deriving DecidableEq, Repr

/-- A live patrolling enemy (`EnemyState` in the source). -/
structure EnemyState where
  x : ℚ
  y : ℚ
  minX : ℚ
  maxX : ℚ
  speed : ℚ
  etype : String
  dir : Int
  width : ℚ
  height : ℚ
deriving DecidableEq, Repr

/-- A static checkpoint definition. -/
structure CheckpointDef where
  x : ℚ
  yOffset : ℚ
deriving DecidableEq, Repr

/-- The mutable last-checkpoint record (`lastCheckpointRef.current`). -/
structure Checkpoint where
  x : ℚ
  y : ℚ
deriving DecidableEq, Repr

/-- The camera position (`cameraRef.current`). -/
structure Camera where
  x : ℚ
  y : ℚ
deriving DecidableEq, Repr

/-- The held-direction input flags; `keysRef.current` stores one flag per key
code, but the simulation only ever reads the left/right movement codes
(ArrowLeft/KeyA and ArrowRight/KeyD), so the map is embedded as those two
flags.  Clearing the whole map (`keysRef.current = {}`) sets both false. -/
structure Keys where
  left : Bool
  right : Bool
deriving DecidableEq, Repr

/-- Both input flags cleared — the image of `keysRef.current = {}`. -/
def noKeys : Keys := { left := false, right := false }

/-- Tuning constants from the level configuration. -/
def GRAVITY : ℚ := 0.45

/-- Per-frame horizontal velocity damping factor. -/
def FRICTION : ℚ := 0.84

/-- Horizontal speed clamp. -/
def MOVE_SPEED : ℚ := 4.6

/-- Upward jump impulse. -/
def JUMP_FORCE : ℚ := -11.5

/-- World width in design units. -/
def WORLD_WIDTH : ℚ := 5200

/-- Fixed design-space viewport height. -/
def DESIGN_HEIGHT : ℚ := 360

/-- Ground reference line used throughout the loop (`DESIGN_HEIGHT - 40`). -/
def groundRefY : ℚ := DESIGN_HEIGHT - 40

/-- Goal x position. -/
def GOAL_X : ℚ := 4800

/-- Goal y offset from the ground reference line. -/
def GOAL_Y_OFFSET : ℚ := -40

/-- Checkpoint definitions, ordered by ascending x. -/
def CHECKPOINTS : List CheckpointDef :=
  [ { x := 140, yOffset := 0 },
    { x := 1100, yOffset := 0 },
    { x := 1950, yOffset := -240 },
    { x := 2600, yOffset := 120 },
    { x := 3200, yOffset := 0 },
    { x := 4200, yOffset := -140 } ]

/-- Raw platform rows (`PLATFORM_DATA`): x, yOffset, width, height, color, type. -/
structure PlatformDef where
  x : ℚ
  yOffset : ℚ
  width : ℚ
  height : ℚ
  color : String
  ptype : String
deriving DecidableEq, Repr

/-- The static platform table from the constants module. -/
def PLATFORM_DATA : List PlatformDef :=
  [ { x := 0, yOffset := 0, width := 900, height := 90, color := "#1b2440", ptype := "floor" },
    { x := 1020, yOffset := 0, width := 620, height := 90, color := "#1b2440", ptype := "floor" },
    { x := 1700, yOffset := 0, width := 280, height := 90, color := "#1b2440", ptype := "floor" },
    { x := 2800, yOffset := 0, width := 620, height := 90, color := "#1b2440", ptype := "floor" },
    { x := 3600, yOffset := 0, width := 520, height := 90, color := "#1b2440", ptype := "floor" },
    { x := 4500, yOffset := 0, width := 520, height := 90, color := "#1b2440", ptype := "floor" },
    { x := 200, yOffset := -60, width := 90, height := 16, color := "#3b3f4a", ptype := "rubble" },
    { x := 360, yOffset := -120, width := 110, height := 16, color := "#3b3f4a", ptype := "rubble" },
    { x := 520, yOffset := -70, width := 90, height := 16, color := "#3b3f4a", ptype := "rubble" },
    { x := 700, yOffset := -140, width := 120, height := 16, color := "#3b3f4a", ptype := "rubble" },
    { x := 1500, yOffset := -40, width := 120, height := 16, color := "#c0c7d1", ptype := "stair" },
    { x := 1600, yOffset := -90, width := 120, height := 16, color := "#c0c7d1", ptype := "stair" },
    { x := 1700, yOffset := -140, width := 120, height := 16, color := "#c0c7d1", ptype := "stair" },
    { x := 1800, yOffset := -190, width := 120, height := 16, color := "#c0c7d1", ptype := "stair" },
    { x := 1900, yOffset := -240, width := 140, height := 16, color := "#c0c7d1", ptype := "stair" },
    { x := 2020, yOffset := -260, width := 220, height := 20, color := "#c0c7d1", ptype := "platform" },
    { x := 2200, yOffset := 200, width := 520, height := 90, color := "#121521", ptype := "grave" },
    { x := 2320, yOffset := 140, width := 120, height := 16, color := "#3b3f4a", ptype := "platform" },
    { x := 2450, yOffset := 90, width := 120, height := 16, color := "#3b3f4a", ptype := "platform" },
    { x := 2580, yOffset := 40, width := 120, height := 16, color := "#3b3f4a", ptype := "platform" },
    { x := 2720, yOffset := 0, width := 140, height := 16, color := "#3b3f4a", ptype := "platform" },
    { x := 3000, yOffset := -60, width := 140, height := 16, color := "#c0c7d1", ptype := "stair" },
    { x := 3120, yOffset := -110, width := 140, height := 16, color := "#c0c7d1", ptype := "stair" },
    { x := 3260, yOffset := -160, width := 160, height := 16, color := "#c0c7d1", ptype := "stair" },
    { x := 3700, yOffset := -70, width := 200, height := 16, color := "#3b3f4a", ptype := "platform" },
    { x := 3950, yOffset := -130, width := 200, height := 16, color := "#3b3f4a", ptype := "platform" },
    { x := 4200, yOffset := -70, width := 200, height := 16, color := "#3b3f4a", ptype := "platform" },
    { x := 4400, yOffset := -170, width := 220, height := 16, color := "#3b3f4a", ptype := "platform" },
    { x := 4700, yOffset := -40, width := 200, height := 18, color := "#c8a24a", ptype := "platform" } ]

/-- World-space platforms derived once at level load:
`y := groundRefY + yOffset`. -/
def PLATFORMS : List Platform :=
  PLATFORM_DATA.map fun p =>
    { x := p.x, y := groundRefY + p.yOffset, width := p.width, height := p.height,
      color := p.color, ptype := p.ptype }

/-- The review-question pool linked from orbs. -/
def REVIEW_QUESTIONS : List Question :=
  [ { id := 1,
      text := "What are the working tools of a Master Mason?",
      answers := [ "The Skirret, the Pencil, and the Compasses.",
                   "The Square, the Level, and the Plumb Rule.",
                   "The 24 inch gauge and the common gavel." ],
      correctAnswer := "The Skirret, the Pencil, and the Compasses.",
      category := "review" },
    { id := 2,
      text := "To what do the working tools of a Master Mason allude?",
      answers := [ "To morality and the Divine Creator.",
                   "To the Middle Chamber and its wages.",
                   "To the pillars of Strength and Establishment." ],
      correctAnswer := "To morality and the Divine Creator.",
      category := "review" },
    { id := 3,
      text := "What are the ornaments of a Master Mason Lodge?",
      answers := [ "The Porch, the Dormer, and the Square Pavement.",
                   "The Mosaic Pavement, the Blazing Star, and the Border.",
                   "The Pillars, the Winding Staircase, and the Middle Chamber." ],
      correctAnswer := "The Porch, the Dormer, and the Square Pavement.",
      category := "review" },
    { id := 4,
      text := "How many constitute a Lodge of Master Masons?",
      answers := [ "Three.", "Five.", "Seven." ],
      correctAnswer := "Three.",
      category := "review" },
    { id := 5,
      text := "What are the Five Points of Fellowship?",
      answers := [ "Hand to hand, foot to foot, knee to knee, breast to breast, hand over back.",
                   "Hand to hand, arm to arm, knee to knee, cheek to cheek, hand over heart.",
                   "Hand to hand, foot to foot, knee to knee, shoulder to shoulder, hand over head." ],
      correctAnswer := "Hand to hand, foot to foot, knee to knee, breast to breast, hand over back.",
      category := "review" } ]

/-- The ritual (death-penalty) question pool. -/
def QUESTIONS : List Question :=
  [ { id := 101,
      text := "What is the peculiar object of the Third Degree?",
      answers := [ "To teach us how to die and the knowledge of oneself.",
                   "To reveal the hidden mysteries of nature and science.",
                   "To explain the wages of the Middle Chamber." ],
      correctAnswer := "To teach us how to die and the knowledge of oneself.",
      category := "ritual" },
    { id := 102,
      text := "How were you prepared for the Third Degree?",
      answers := [ "Both arms, both breasts, both knees bare, both heels slipshod.",
                   "Both arms bare, left breast bare, right heel slipshod.",
                   "Left arm and right knee bare, hoodwinked, with a cable tow twice around." ],
      correctAnswer := "Both arms, both breasts, both knees bare, both heels slipshod.",
      category := "ritual" },
    { id := 103,
      text := "What do the three steps consist of?",
      answers := [ "The first three as if stepping over a grave.",
                   "The three principal officers of a lodge.",
                   "The three great supports of Masonry." ],
      correctAnswer := "The first three as if stepping over a grave.",
      category := "ritual" },
    { id := 104,
      text := "The Skirret points out",
      answers := [ "The straight and undeviating line of conduct.",
                   "The level of equality among mankind.",
                   "The uprightness of life and actions." ],
      correctAnswer := "The straight and undeviating line of conduct.",
      category := "working_tools" },
    { id := 105,
      text := "The Pencil teaches us",
      answers := [ "That our words and actions are recorded by the Almighty Architect.",
                   "That time is measured in equal parts.",
                   "That wisdom is gained through silence." ],
      correctAnswer := "That our words and actions are recorded by the Almighty Architect.",
      category := "working_tools" },
    { id := 106,
      text := "The Compasses remind us of",
      answers := [ "Unerring and impartial justice.",
                   "The limits of earthly desires.",
                   "The equality of all men in the lodge." ],
      correctAnswer := "Unerring and impartial justice.",
      category := "working_tools" } ]

/-- Orb id 1 (Skirret). -/
def orbSkirret : Orb :=
  { id := 1, x := 1180, yOffset := -20, radius := 18, questionId := some 1,
    name := "Skirret", spriteKey := "skirret",
    blurb := "The Skirret draws the straight and undeviating line of conduct.",
    points := some 150 }

/-- Orb id 2 (Pencil). -/
def orbPencil : Orb :=
  { id := 2, x := 1880, yOffset := -220, radius := 18, questionId := some 2,
    name := "Pencil", spriteKey := "pencil",
    blurb := "The Pencil records our work in the Book of Life.",
    points := some 150 }

/-- Orb id 3 (Compasses). -/
def orbCompasses : Orb :=
  { id := 3, x := 3120, yOffset := -20, radius := 18, questionId := some 3,
    name := "Compasses", spriteKey := "compasses",
    blurb := "The Compasses keep our passions within due bounds.",
    points := some 150 }

/-- Orb id 4 (Sprig of Acacia, no linked question). -/
def orbAcacia : Orb :=
  { id := 4, x := 4150, yOffset := -150, radius := 18, questionId := none,
    name := "Sprig of Acacia", spriteKey := "acacia",
    blurb := "The acacia marks the place of fidelity and hope beyond the grave.",
    points := some 250 }

/-- The orb table. -/
def ORB_DATA : List Orb := [orbSkirret, orbPencil, orbCompasses, orbAcacia]

/-- Tool orb ids required at the goal. -/
def REQUIRED_TOOL_IDS : List Nat := [1, 2, 3]

/-- Enemy definition rows (`ENEMY_DATA`). -/
structure EnemyDef where
  x : ℚ
  yOffset : ℚ
  minX : ℚ
  maxX : ℚ
  speed : ℚ
  etype : String
deriving DecidableEq, Repr

/-- The enemy table. -/
def ENEMY_DATA : List EnemyDef :=
  [ { x := 1200, yOffset := 0, minX := 1050, maxX := 1500, speed := 1.1, etype := "Jubela" },
    { x := 1850, yOffset := -230, minX := 1700, maxX := 2050, speed := 0.9, etype := "Jubelo" },
    { x := 3100, yOffset := 0, minX := 2950, maxX := 3400, speed := 1.6, etype := "Jubelum" } ]

/-- Fresh enemy state from `ENEMY_DATA` (the source's `initializeEnemies`):
`y := groundRefY + yOffset - 44`, direction 1, size 32 by 44. -/
def initEnemies : List EnemyState :=
  ENEMY_DATA.map fun e =>
    { x := e.x, y := groundRefY + e.yOffset - 44, minX := e.minX, maxX := e.maxX,
      speed := e.speed, etype := e.etype, dir := 1, width := 32, height := 44 }

/-- The player record as initialised at mount (lines 74 to 85 of the canvas). -/
def initialPlayer : Player :=
  { x := 60, y := DESIGN_HEIGHT - 140, width := 30, height := 44,
    vx := 0, vy := 0, isGrounded := false, facing := 1,
    jumpCount := 0, coyoteTimer := 0 }

/-- The whole simulation state: React state and the refs that mirror it,
collapsed into one record.  `collectedIds` and `seenLore` are JS `Set`s,
embedded as duplicate-free-by-construction lists via `setAddNat` and
`setAddStr`.  The render-only shuffled grave answer list is not carried. -/
structure GState where
  gameState : GameState
  modalState : ModalState
  activeOrb : Option Orb
  activeQuestion : Option Question
  graveQuestion : Option Question
  graveResult : Option GraveResult
  score : Nat
  collectedIds : List Nat
  warningMessage : Option String
  seenLore : List String
  keys : Keys
  jumpBuffer : Nat
  lastCheckpoint : Checkpoint
  camera : Camera
  player : Player
  enemies : List EnemyState
deriving DecidableEq, Repr

/-- `Set.add` for the collected-id set. -/
def setAddNat (s : List Nat) (n : Nat) : List Nat :=
  if s.contains n then s else n :: s

/-- `Set.add` for the seen-lore set. -/
def setAddStr (s : List String) (k : String) : List String :=
  if s.contains k then s else k :: s

/-- Horizontal input acceleration and facing (lines 382 to 389):
each held direction adds 0.8 to `vx` and sets `facing`. -/
def accelInput (keys : Keys) (p : Player) : Player :=
  let p1 := if keys.left then { p with vx := p.vx - 0.8, facing := -1 } else p
  if keys.right then { p1 with vx := p1.vx + 0.8, facing := 1 } else p1

/-- Clamp `vx` to the interval given by `MOVE_SPEED` (lines 391 to 392). -/
def clampSpeed (v : ℚ) : ℚ :=
  if MOVE_SPEED < v then MOVE_SPEED
  else if v < -MOVE_SPEED then -MOVE_SPEED
  else v

/-- Friction damping (line 394). -/
def applyFriction (v : ℚ) : ℚ := v * FRICTION

/-- Snap small `vx` to zero (line 395). -/
def snapVx (v : ℚ) : ℚ := if |v| < 0.1 then 0 else v

/-- One frame of kinematics (lines 382 to 399): horizontal acceleration,
clamp, friction, snap, x integration; then gravity and y integration. -/
def moveStep (st : GState) : Player :=
  let p := accelInput st.keys st.player
  let vx := snapVx (applyFriction (clampSpeed p.vx))
  let p := { p with vx := vx, x := p.x + vx }
  { p with vy := p.vy + GRAVITY, y := p.y + (p.vy + GRAVITY) }

/-- The horizontal velocity entering the clamp on a tick of state `st`. -/
def vxBeforeClamp (st : GState) : ℚ := (accelInput st.keys st.player).vx

/-- C5: on every tick, the horizontal velocity after the friction
multiplication has magnitude at most `MOVE_SPEED` (4.6) — hence so does the
final `vx` after the zero snap — and whenever the magnitude before the clamp
was below the epsilon 0.1 the `vx` at the end of the horizontal update is
exactly 0. -/
theorem c5_friction_bounds (st : GState) :
    |applyFriction (clampSpeed (vxBeforeClamp st))| ≤ MOVE_SPEED ∧
    |(moveStep st).vx| ≤ MOVE_SPEED ∧
    (|vxBeforeClamp st| < 0.1 → (moveStep st).vx = 0) := by
  have hclamp : |clampSpeed (vxBeforeClamp st)| ≤ MOVE_SPEED := by
    unfold clampSpeed MOVE_SPEED
    split_ifs with h1 h2
    · norm_num [abs_le]
    · norm_num [abs_le]
    · rw [abs_le]
      exact ⟨by linarith [h2], by linarith [h1]⟩
  have hfr : |applyFriction (clampSpeed (vxBeforeClamp st))| ≤ MOVE_SPEED := by
    unfold applyFriction FRICTION
    rw [abs_mul]
    have : |(0.84 : ℚ)| = 0.84 := by norm_num
    rw [this]
    calc |clampSpeed (vxBeforeClamp st)| * 0.84
        ≤ MOVE_SPEED * 0.84 := by
          apply mul_le_mul_of_nonneg_right hclamp (by norm_num)
      _ ≤ MOVE_SPEED := by unfold MOVE_SPEED; norm_num
  refine ⟨hfr, ?_, ?_⟩
  · have hmv : (moveStep st).vx = snapVx (applyFriction (clampSpeed (vxBeforeClamp st))) := by
      simp [moveStep, vxBeforeClamp]
    rw [hmv]
    unfold snapVx
    split_ifs with h
    · simp [MOVE_SPEED]; norm_num
    · exact hfr
  · intro hsmall
    have hmv : (moveStep st).vx = snapVx (applyFriction (clampSpeed (vxBeforeClamp st))) := by
      simp [moveStep, vxBeforeClamp]
    rw [hmv]
    have hcl : clampSpeed (vxBeforeClamp st) = vxBeforeClamp st := by
      unfold clampSpeed MOVE_SPEED
      have h1 := abs_lt.mp hsmall
      rw [if_neg (by norm_num at h1 ⊢; linarith [h1.2]),
          if_neg (by norm_num at h1 ⊢; linarith [h1.1])]
    rw [hcl]
    unfold snapVx applyFriction FRICTION
    rw [if_pos]
    rw [abs_mul]
    have : |(0.84 : ℚ)| = 0.84 := by norm_num
    rw [this]
    calc |vxBeforeClamp st| * 0.84 ≤ |vxBeforeClamp st| * 1 := by
          apply mul_le_mul_of_nonneg_left (by norm_num) (abs_nonneg _)
      _ = |vxBeforeClamp st| := by ring
      _ < 0.1 := hsmall

/-- Witness for C5 at a concrete state: with no keys held and incoming
`vx = 0.05` (below the epsilon) the tick ends with `vx = 0`, and the
post-friction magnitude is within the clamp. -/
def c5State : GState :=
  { gameState := GameState.PLAYING, modalState := ModalState.NONE,
    activeOrb := none, activeQuestion := none, graveQuestion := none,
    graveResult := none, score := 0, collectedIds := [], warningMessage := none,
    seenLore := [], keys := noKeys, jumpBuffer := 0,
    lastCheckpoint := { x := 60, y := 220 }, camera := { x := 0, y := 0 },
    player := { initialPlayer with vx := 0.05 }, enemies := initEnemies }

theorem c5_friction_bounds_witness :
    |applyFriction (clampSpeed (vxBeforeClamp c5State))| ≤ MOVE_SPEED ∧
    (moveStep c5State).vx = 0 := by
  have h := c5_friction_bounds c5State
  refine ⟨h.1, h.2.2 ?_⟩
  norm_num [vxBeforeClamp, accelInput, c5State, noKeys, initialPlayer, abs_lt]

/-- The AABB overlap test of the resolver (lines 426 to 431). -/
def aabbOverlapP (p : Player) (pl : Platform) : Prop :=
  p.x < pl.x + pl.width ∧ pl.x < p.x + p.width ∧
  p.y < pl.y + pl.height ∧ pl.y < p.y + p.height

instance (p : Player) (pl : Platform) : Decidable (aabbOverlapP p pl) := by
  unfold aabbOverlapP; infer_instance

/-- Penetration depth along x from the two centers (line 437). -/
def overlapX (p : Player) (pl : Platform) : ℚ :=
  (p.width + pl.width) / 2 - |p.x + p.width / 2 - (pl.x + pl.width / 2)|

/-- Penetration depth along y from the two centers (line 438). -/
def overlapY (p : Player) (pl : Platform) : ℚ :=
  (p.height + pl.height) / 2 - |p.y + p.height / 2 - (pl.y + pl.height / 2)|

/-- Overlap of the x-extents alone. -/
def xOverlapP (p : Player) (pl : Platform) : Prop :=
  p.x < pl.x + pl.width ∧ pl.x < p.x + p.width

/-- Overlap of the y-extents alone. -/
def yOverlapP (p : Player) (pl : Platform) : Prop :=
  p.y < pl.y + pl.height ∧ pl.y < p.y + p.height

instance (p : Player) (pl : Platform) : Decidable (xOverlapP p pl) := by
  unfold xOverlapP; infer_instance

instance (p : Player) (pl : Platform) : Decidable (yOverlapP p pl) := by
  unfold yOverlapP; infer_instance

/-- Minimum-translation resolution against one platform (lines 425 to 459):
push out along the axis of smaller overlap; vertical resolution from above
grounds the player, zeroes `vy` and resets the jump count, from below only
zeroes `vy`; horizontal resolution zeroes `vx`. -/
def resolvePlat (p : Player) (pl : Platform) : Player :=
  if aabbOverlapP p pl then
    if overlapX p pl < overlapY p pl then
      if p.x + p.width / 2 < pl.x + pl.width / 2 then
        { p with x := pl.x - p.width, vx := 0 }
      else
        { p with x := pl.x + pl.width, vx := 0 }
    else
      if p.y + p.height / 2 < pl.y + pl.height / 2 then
        { p with y := pl.y - p.height, isGrounded := true, vy := 0, jumpCount := 0 }
      else
        { p with y := pl.y + pl.height, vy := 0 }
  else p

/-- Sequential resolution over a platform list, in iteration order. -/
def resolveList (p : Player) (l : List Platform) : Player :=
  l.foldl resolvePlat p

/-- The whole collision pass of a tick: clear `isGrounded` (line 424), then
resolve sequentially against every platform. -/
def resolveAll (p : Player) : Player :=
  resolveList { p with isGrounded := false } PLATFORMS

/-- The world-space platform list written out, for concrete evaluations. -/
theorem PLATFORMS_eq : PLATFORMS =
    [ { x := 0, y := 320, width := 900, height := 90, color := "#1b2440", ptype := "floor" },
      { x := 1020, y := 320, width := 620, height := 90, color := "#1b2440", ptype := "floor" },
      { x := 1700, y := 320, width := 280, height := 90, color := "#1b2440", ptype := "floor" },
      { x := 2800, y := 320, width := 620, height := 90, color := "#1b2440", ptype := "floor" },
      { x := 3600, y := 320, width := 520, height := 90, color := "#1b2440", ptype := "floor" },
      { x := 4500, y := 320, width := 520, height := 90, color := "#1b2440", ptype := "floor" },
      { x := 200, y := 260, width := 90, height := 16, color := "#3b3f4a", ptype := "rubble" },
      { x := 360, y := 200, width := 110, height := 16, color := "#3b3f4a", ptype := "rubble" },
      { x := 520, y := 250, width := 90, height := 16, color := "#3b3f4a", ptype := "rubble" },
      { x := 700, y := 180, width := 120, height := 16, color := "#3b3f4a", ptype := "rubble" },
      { x := 1500, y := 280, width := 120, height := 16, color := "#c0c7d1", ptype := "stair" },
      { x := 1600, y := 230, width := 120, height := 16, color := "#c0c7d1", ptype := "stair" },
      { x := 1700, y := 180, width := 120, height := 16, color := "#c0c7d1", ptype := "stair" },
      { x := 1800, y := 130, width := 120, height := 16, color := "#c0c7d1", ptype := "stair" },
      { x := 1900, y := 80, width := 140, height := 16, color := "#c0c7d1", ptype := "stair" },
      { x := 2020, y := 60, width := 220, height := 20, color := "#c0c7d1", ptype := "platform" },
      { x := 2200, y := 520, width := 520, height := 90, color := "#121521", ptype := "grave" },
      { x := 2320, y := 460, width := 120, height := 16, color := "#3b3f4a", ptype := "platform" },
      { x := 2450, y := 410, width := 120, height := 16, color := "#3b3f4a", ptype := "platform" },
      { x := 2580, y := 360, width := 120, height := 16, color := "#3b3f4a", ptype := "platform" },
      { x := 2720, y := 320, width := 140, height := 16, color := "#3b3f4a", ptype := "platform" },
      { x := 3000, y := 260, width := 140, height := 16, color := "#c0c7d1", ptype := "stair" },
      { x := 3120, y := 210, width := 140, height := 16, color := "#c0c7d1", ptype := "stair" },
      { x := 3260, y := 160, width := 160, height := 16, color := "#c0c7d1", ptype := "stair" },
      { x := 3700, y := 250, width := 200, height := 16, color := "#3b3f4a", ptype := "platform" },
      { x := 3950, y := 190, width := 200, height := 16, color := "#3b3f4a", ptype := "platform" },
      { x := 4200, y := 250, width := 200, height := 16, color := "#3b3f4a", ptype := "platform" },
      { x := 4400, y := 150, width := 220, height := 16, color := "#3b3f4a", ptype := "platform" },
      { x := 4700, y := 280, width := 200, height := 18, color := "#c8a24a", ptype := "platform" } ] := by
  norm_num [PLATFORMS, PLATFORM_DATA, groundRefY, DESIGN_HEIGHT]

/-- C3 (amended): immediately after one platform resolution, the corrected
player rectangle no longer overlaps that platform on the resolved axis.
The original claim extends this to the final rectangle of a multi-platform
pass, which `c3_resolver_counterexample` refutes. -/
theorem c3_resolved_axis_separated (p : Player) (pl : Platform)
    (h : aabbOverlapP p pl) :
    (overlapX p pl < overlapY p pl → ¬ xOverlapP (resolvePlat p pl) pl) ∧
    (¬ overlapX p pl < overlapY p pl → ¬ yOverlapP (resolvePlat p pl) pl) := by
  constructor
  · intro hx
    unfold resolvePlat
    rw [if_pos h, if_pos hx]
    split_ifs with hc
    · intro hov
      rcases hov with ⟨-, h2⟩
      simp only at h2
      linarith
    · intro hov
      rcases hov with ⟨h1, -⟩
      simp only at h1
      linarith
  · intro hy
    unfold resolvePlat
    rw [if_pos h, if_neg hy]
    split_ifs with hc
    · intro hov
      rcases hov with ⟨-, h2⟩
      simp only at h2
      linarith
    · intro hov
      rcases hov with ⟨h1, -⟩
      simp only at h1
      linarith

/-- Concrete player overlapping the first floor platform, for the C3 witness. -/
def c3WitnessPlayer : Player :=
  { x := 100, y := 300, width := 30, height := 44, vx := 0, vy := 2,
    isGrounded := false, facing := 1, jumpCount := 0, coyoteTimer := 0 }

/-- The first floor platform in world space. -/
def floor1 : Platform :=
  { x := 0, y := 320, width := 900, height := 90, color := "#1b2440", ptype := "floor" }

theorem c3_resolved_axis_separated_witness :
    aabbOverlapP c3WitnessPlayer floor1 ∧
    ¬ yOverlapP (resolvePlat c3WitnessPlayer floor1) floor1 := by
  have hov : aabbOverlapP c3WitnessPlayer floor1 := by
    norm_num [aabbOverlapP, c3WitnessPlayer, floor1]
  refine ⟨hov, (c3_resolved_axis_separated c3WitnessPlayer floor1 hov).2 ?_⟩
  norm_num [overlapX, overlapY, c3WitnessPlayer, floor1, abs_lt, abs_of_neg, abs_of_nonneg]

/-- Tentative player for the C3 counterexample: it overlaps the stairs at
x 1500 and x 1600 simultaneously. -/
def c3Tentative : Player :=
  { x := 1595, y := 240, width := 30, height := 44, vx := 0, vy := 0,
    isGrounded := false, facing := 1, jumpCount := 0, coyoteTimer := 0 }

/-- The stair platform at x 1500 in world space (element 10 of the pass). -/
def stairA : Platform :=
  { x := 1500, y := 280, width := 120, height := 16, color := "#c0c7d1", ptype := "stair" }

/-- C3 counterexample: in a tick whose tentative rectangle overlaps two stair
platforms, the pass first resolves the x 1500 stair on the vertical axis
(landing on top of it), but the subsequent resolution against the x 1600
stair pushes the player back down, so after the whole pass the corrected
rectangle again overlaps the x 1500 stair on the very axis that was resolved
— refuting the claim for the post-pass rectangle. -/
theorem c3_resolver_counterexample :
    stairA ∈ PLATFORMS ∧
    resolveList { c3Tentative with isGrounded := false } (PLATFORMS.take 10) =
      { c3Tentative with isGrounded := false } ∧
    aabbOverlapP { c3Tentative with isGrounded := false } stairA ∧
    ¬ overlapX { c3Tentative with isGrounded := false } stairA <
        overlapY { c3Tentative with isGrounded := false } stairA ∧
    yOverlapP (resolveAll c3Tentative) stairA ∧
    aabbOverlapP (resolveAll c3Tentative) stairA := by
  have heval : resolveAll c3Tentative =
      { x := 1595, y := 246, width := 30, height := 44, vx := 0, vy := 0,
        isGrounded := true, facing := 1, jumpCount := 0, coyoteTimer := 0 } := by
    rw [resolveAll, resolveList, PLATFORMS_eq]
    norm_num [List.foldl, resolvePlat, aabbOverlapP, overlapX, overlapY, c3Tentative,
      abs_lt, abs_of_neg, abs_of_nonneg]
  refine ⟨?_, ?_, ?_, ?_, ?_, ?_⟩
  · rw [PLATFORMS_eq]
    norm_num [stairA]
  · rw [resolveList, PLATFORMS_eq]
    norm_num [List.foldl, resolvePlat, aabbOverlapP, overlapX, overlapY, c3Tentative,
      abs_lt, abs_of_neg, abs_of_nonneg]
  · norm_num [aabbOverlapP, c3Tentative, stairA]
  · norm_num [overlapX, overlapY, c3Tentative, stairA, abs_lt, abs_of_neg, abs_of_nonneg]
  · rw [heval]
    norm_num [yOverlapP, stairA]
  · rw [heval]
    norm_num [aabbOverlapP, stairA]

/-- One checkpoint comparison (lines 407 to 412): advance the record when
the player's x has passed this checkpoint and it lies beyond the record. -/
def checkStep (p : Player) (acc : Checkpoint) (c : CheckpointDef) : Checkpoint :=
  if c.x < p.x ∧ acc.x < c.x then
    { x := c.x, y := groundRefY + c.yOffset - p.height - 8 }
  else acc

/-- Checkpoint advance (lines 406 to 413): the loop reads the record it just
wrote, hence a fold over the checkpoint table. -/
def stepCheckpoints (cp : Checkpoint) (p : Player) : Checkpoint :=
  CHECKPOINTS.foldl (checkStep p) cp

/-- World-bound clamp on x (lines 415 to 422), zeroing `vx` at either wall. -/
def clampWorldX (p : Player) : Player :=
  let p1 := if p.x < 0 then { p with x := 0, vx := 0 } else p
  if WORLD_WIDTH - p1.width < p1.x then
    { p1 with x := WORLD_WIDTH - p1.width, vx := 0 }
  else p1

/-- `executeJump` (lines 286 to 297): when grounded or in coyote time, apply
the jump impulse and clear the buffer; otherwise arm the 6-frame buffer. -/
def executeJump (p : Player) (_jb : Nat) : Player × Nat :=
  if p.isGrounded ∨ 0 < p.coyoteTimer then
    ({ p with vy := JUMP_FORCE, isGrounded := false, jumpCount := 1, coyoteTimer := 0 }, 0)
  else (p, 6)

/-- Post-collision timer logic (lines 461 to 467): re-arm or decrement the
coyote timer, fire a buffered jump if grounded, then decrement the buffer. -/
def postCollision (p : Player) (jb : Nat) : Player × Nat :=
  let p1 :=
    if p.isGrounded then { p with coyoteTimer := 6 }
    else if 0 < p.coyoteTimer then { p with coyoteTimer := p.coyoteTimer - 1 } else p
  let pj := if p1.isGrounded ∧ 0 < jb then executeJump p1 jb else (p1, jb)
  (pj.1, if 0 < pj.2 then pj.2 - 1 else pj.2)

/-- World-space y of an orb, recomputed each tick. -/
def orbWorldY (o : Orb) : ℚ := groundRefY + o.yOffset

/-- Circular orb proximity test (lines 471 to 474).  The source compares
`sqrt(dx*dx+dy*dy) < orb.radius + player.width/2 + 8`; squaring both sides is
exact because the right side is positive for every orb in the level data. -/
def orbNearB (p : Player) (o : Orb) : Bool :=
  decide ((p.x + p.width / 2 - o.x) ^ 2 + (p.y + p.height / 2 - orbWorldY o) ^ 2
    < (o.radius + p.width / 2 + 8) ^ 2)

/-- First active orb the player touches, in table order (lines 469 to 496);
inactive means already collected. -/
def findOrbHit (collected : List Nat) (p : Player) : Option Orb :=
  ORB_DATA.find? fun o => !(collected.contains o.id) && orbNearB p o

/-- `collectOrb` (lines 229 to 241): add the id to the collected set, add the
orb's points (default 100) to the score, drop the pending orb and question
and close the modal. -/
def collectOrb (orb : Orb) (st : GState) : GState :=
  { st with
    collectedIds := setAddNat st.collectedIds orb.id,
    score := st.score + orb.points.getD 100,
    activeOrb := none, activeQuestion := none, modalState := ModalState.NONE }

/-- The orb-touch trigger body (lines 475 to 494): record the active orb,
stop the player and clear held input, then route to the review quiz, to
immediate collection, or to the lore modal, depending on the seen-lore set
and the linked question. -/
def orbTrigger (orb : Orb) (st : GState) : GState :=
  let st1 := { st with
    activeOrb := some orb,
    player := { st.player with vx := 0, vy := 0 },
    keys := noKeys }
  if st1.seenLore.contains orb.spriteKey then
    match orb.questionId with
    | some qid =>
      match REVIEW_QUESTIONS.find? fun q => q.id = qid with
      | some q => { st1 with activeQuestion := some q, modalState := ModalState.QUIZ }
      | none => collectOrb orb st1
    | none => collectOrb orb st1
  else { st1 with modalState := ModalState.LORE }

/-- One enemy patrol step (lines 498 to 507): advance by `speed * dir`, then
clamp to `minX`/`maxX`, reversing direction at either bound. -/
def stepEnemy (e : EnemyState) : EnemyState :=
  let e1 := { e with x := e.x + e.speed * (e.dir : ℚ) }
  let e2 := if e1.x < e1.minX then { e1 with x := e1.minX, dir := 1 } else e1
  if e2.maxX < e2.x then { e2 with x := e2.maxX, dir := -1 } else e2

/-- Player-enemy AABB contact test (lines 509 to 514). -/
def enemyHitP (p : Player) (e : EnemyState) : Prop :=
  p.x < e.x + e.width ∧ e.x < p.x + p.width ∧
  p.y < e.y + e.height ∧ e.y < p.y + p.height

instance (p : Player) (e : EnemyState) : Decidable (enemyHitP p e) := by
  unfold enemyHitP; infer_instance

/-- The enemy loop (lines 498 to 518): enemies are stepped in order; on the
first contact the loop stops (the remaining enemies keep their old state) and
the flag reports the death. -/
def stepEnemies (p : Player) : List EnemyState → List EnemyState × Bool
  | [] => ([], false)
  | e :: rest =>
    let e1 := stepEnemy e
    if enemyHitP p e1 then (e1 :: rest, true)
    else
      let r := stepEnemies p rest
      (e1 :: r.1, r.2)

/-- `pickGraveQuestion` (lines 173 to 176): a uniformly random index into the
ritual pool; the random draw `floor(random * length)` is embedded as an
arbitrary natural reduced mod the pool size. -/
def pickGraveQuestion (k : Nat) : Question :=
  QUESTIONS.get ⟨k % QUESTIONS.length, Nat.mod_lt k (by decide)⟩

/-- `handleDeath` (lines 217 to 227): only in PLAYING; draw a grave question,
clear held input, stop the player and enter GRAVE.  (The shuffled answer
list set alongside is display-only and not carried in the state.) -/
def handleDeath (k : Nat) (st : GState) : GState :=
  if st.gameState = GameState.PLAYING then
    { st with
      graveQuestion := some (pickGraveQuestion k),
      graveResult := none,
      keys := noKeys,
      player := { st.player with vx := 0, vy := 0 },
      gameState := GameState.GRAVE }
  else st

/-- Goal proximity test (lines 520 to 522). -/
def nearGoalP (p : Player) : Prop :=
  |p.x - GOAL_X| < 40 ∧ |p.y - (groundRefY + GOAL_Y_OFFSET)| < 80

instance (p : Player) : Decidable (nearGoalP p) := by
  unfold nearGoalP; infer_instance

/-- All required tool ids collected (line 524). -/
def hasTools (collected : List Nat) : Bool :=
  REQUIRED_TOOL_IDS.all fun i => collected.contains i

/-- Warning shown at a sealed goal. -/
def sealedMsg : String := "The East is sealed. Recover the working tools first."

/-- Warning shown after a failed orb quiz. -/
def fidelityMsg : String := "Fidelity falters. The tool remains in shadow."

/-- Lower camera band bound (line 118): min platform y minus 200. -/
def boundsMinY : ℚ :=
  ((PLATFORMS.map fun pl => pl.y).foldl min ((PLATFORMS.map fun pl => pl.y).headD 0)) - 200

/-- Upper camera band bound (line 119). -/
def boundsMaxY : ℚ :=
  ((PLATFORMS.map fun pl => pl.y + pl.height).foldl max
    ((PLATFORMS.map fun pl => pl.y + pl.height).headD 0)) - DESIGN_HEIGHT + 200

/-- Camera smoothing (lines 536 to 542): clamp the centering target to the
world and vertical band, then move 12 percent of the remaining distance. -/
def updateCamera (viewW : ℚ) (st : GState) : GState :=
  let p := st.player
  let tx := max 0 (min (p.x - viewW / 2 + p.width / 2) (WORLD_WIDTH - viewW))
  let ty := max boundsMinY (min (p.y - DESIGN_HEIGHT / 2) boundsMaxY)
  { st with camera :=
      { x := st.camera.x + (tx - st.camera.x) * 0.12,
        y := st.camera.y + (ty - st.camera.y) * 0.12 } }

/-- Per-tick inputs that are external to the state: the random index behind
the grave-question draw and the viewport width behind the camera target. -/
structure TickInput where
  graveIdx : Nat
  viewW : ℚ

/-- The goal stage of a tick (lines 520 to 534 and the camera update): near
the goal with all tools, submit `score + 500` and enter VICTORY, ending the
tick; near it without them, set the sealed warning unless one is already
showing and fall through to the camera update; away from it, just update the
camera.  The second component is the score submitted to the leaderboard this
tick, if any. -/
def tickGoal (inp : TickInput) (st : GState) : GState × Option Nat :=
  if nearGoalP st.player then
    if hasTools st.collectedIds then
      ({ st with gameState := GameState.VICTORY }, some (st.score + 500))
    else
      (updateCamera inp.viewW
        (if st.warningMessage.isNone then { st with warningMessage := some sealedMsg } else st),
       none)
  else (updateCamera inp.viewW st, none)

/-- The enemy stage of a tick: on contact, die (the remaining stages are
skipped); otherwise proceed to the goal stage. -/
def tickEnemies (inp : TickInput) (st : GState) : GState × Option Nat :=
  let r := stepEnemies st.player st.enemies
  if r.2 then (handleDeath inp.graveIdx { st with enemies := r.1 }, none)
  else tickGoal inp { st with enemies := r.1 }

/-- The trigger stage of a tick, entered with the post-collision player and
the advanced checkpoint already folded into the state: the first touched
active orb short-circuits into its modal/collection route, otherwise the
enemy and goal stages run. -/
def tickTriggers (inp : TickInput) (st : GState) : GState × Option Nat :=
  match findOrbHit st.collectedIds st.player with
  | some orb => (orbTrigger orb st, none)
  | none => tickEnemies inp st

/-- One frame of the game loop (lines 357 to 543), as scheduled while the
game state is PLAYING and no modal is open: kinematics, fatal-fall check,
checkpoint advance, world clamp, collision pass, timers, then the trigger
stages.  Returns the next state and the score submitted this frame, if any. -/
def tick (inp : TickInput) (st : GState) : GState × Option Nat :=
  let p1 := moveStep st
  if groundRefY + 520 < p1.y then
    (handleDeath inp.graveIdx { st with player := p1 }, none)
  else
    let cp := stepCheckpoints st.lastCheckpoint p1
    let pj := postCollision (resolveAll (clampWorldX p1)) st.jumpBuffer
    tickTriggers inp { st with player := pj.1, lastCheckpoint := cp, jumpBuffer := pj.2 }

/-- The player after the movement, clamp, collision and timer phases of a
tick from state `st` — the rectangle the trigger stages test against. -/
def playerAfterPhys (st : GState) : Player :=
  (postCollision (resolveAll (clampWorldX (moveStep st))) st.jumpBuffer).1

/-- `resetPlayer` (lines 178 to 187): note it does not touch `facing`,
`width` or `height`. -/
def resetPlayer (x y : ℚ) (p : Player) : Player :=
  { p with
    x := x, y := y, vx := 0, vy := 0, isGrounded := false,
    jumpCount := 0, coyoteTimer := 0 }

/-- `resetGame` (lines 189 to 207): the full reset, to the menu or straight
into a fresh run. -/
def resetGame (toMenu : Bool) (st : GState) : GState :=
  { st with
    player := resetPlayer 60 (groundRefY - 100) st.player,
    camera := { x := 0, y := 0 },
    lastCheckpoint := { x := 60, y := groundRefY - 100 },
    collectedIds := [],
    seenLore := [],
    score := 0,
    activeOrb := none,
    activeQuestion := none,
    graveQuestion := none,
    graveResult := none,
    warningMessage := none,
    modalState := ModalState.NONE,
    enemies := initEnemies,
    gameState := if toMenu then GameState.START else GameState.PLAYING }

/-- `respawnAtCheckpoint` (lines 209 to 215). -/
def respawnAtCheckpoint (st : GState) : GState :=
  { st with
    player := resetPlayer st.lastCheckpoint.x st.lastCheckpoint.y st.player,
    gameState := GameState.PLAYING,
    graveQuestion := none,
    graveResult := none }

/-- `handleLoreContinue` (lines 243 to 261): mark the lore seen, then route
to the linked review question if found, else collect immediately. -/
def handleLoreContinue (st : GState) : GState :=
  match st.activeOrb with
  | none => { st with modalState := ModalState.NONE }
  | some orb =>
    let st1 := { st with seenLore := setAddStr st.seenLore orb.spriteKey }
    match orb.questionId with
    | some qid =>
      match REVIEW_QUESTIONS.find? fun q => q.id = qid with
      | some q => { st1 with activeQuestion := some q, modalState := ModalState.QUIZ }
      | none => collectOrb orb st1
    | none => collectOrb orb st1

/-- `handleQuizCorrect` (lines 263 to 265). -/
def handleQuizCorrect (st : GState) : GState :=
  match st.activeOrb with
  | some orb => collectOrb orb st
  | none => st

/-- `handleQuizIncorrect` (lines 267 to 272). -/
def handleQuizIncorrect (st : GState) : GState :=
  { st with
    activeQuestion := none,
    activeOrb := none,
    modalState := ModalState.NONE,
    warningMessage := some fidelityMsg }

/-- The grave answer button (lines 833 to 840): compare against the correct
answer and record the result. -/
def answerGrave (ans : String) (st : GState) : GState :=
  match st.graveQuestion with
  | none => st
  | some q =>
    if ans = q.correctAnswer then { st with graveResult := some GraveResult.correct }
    else { st with graveResult := some GraveResult.incorrect }

/-- C8: an incorrect orb-quiz answer discards the pending orb and question,
returns the modal state to NONE and sets the transient warning (a timer
outside the simulation clears it after 3 seconds), while the collected set,
the score and the last checkpoint are left untouched. -/
theorem c8_quiz_incorrect_no_rollback (st : GState) :
    (handleQuizIncorrect st).modalState = ModalState.NONE ∧
    (handleQuizIncorrect st).activeOrb = none ∧
    (handleQuizIncorrect st).activeQuestion = none ∧
    (handleQuizIncorrect st).warningMessage = some fidelityMsg ∧
    (handleQuizIncorrect st).collectedIds = st.collectedIds ∧
    (handleQuizIncorrect st).score = st.score ∧
    (handleQuizIncorrect st).lastCheckpoint = st.lastCheckpoint := by
  refine ⟨rfl, rfl, rfl, rfl, rfl, rfl, rfl⟩

/-- C9: the full reset is idempotent — applying it twice with the same
to-menu flag produces exactly the state of applying it once (every field it
writes is a constant, and the fields it leaves alone pass through both
times). -/
theorem c9_reset_idempotent (toMenu : Bool) (st : GState) :
    resetGame toMenu (resetGame toMenu st) = resetGame toMenu st := rfl

/-- C10: one enemy patrol update keeps the enemy inside its patrol interval
whenever that interval is non-degenerate, whatever its speed, direction or
starting x; the clamp at the lower bound turns the direction to 1 and the
clamp at the upper bound turns it to -1; the bounds themselves never move. -/
theorem c10_enemy_patrol_bounds (e : EnemyState) (h : e.minX ≤ e.maxX) :
    e.minX ≤ (stepEnemy e).x ∧ (stepEnemy e).x ≤ e.maxX ∧
    (stepEnemy e).minX = e.minX ∧ (stepEnemy e).maxX = e.maxX ∧
    (e.x + e.speed * (e.dir : ℚ) < e.minX → (stepEnemy e).dir = 1) ∧
    (e.maxX < e.x + e.speed * (e.dir : ℚ) → (stepEnemy e).dir = -1) := by
  unfold stepEnemy
  dsimp only
  split_ifs with h1 h2 h2
  · exact absurd (h.trans_lt h2) (lt_irrefl _)
  · exact ⟨le_rfl, h, rfl, rfl, fun _ => rfl, fun hc => False.elim (by linarith)⟩
  · exact ⟨h, le_rfl, rfl, rfl, fun hc => False.elim (by linarith), fun _ => rfl⟩
  · exact ⟨not_lt.mp h1, not_lt.mp h2, rfl, rfl,
      fun hc => absurd hc h1, fun hc => absurd hc h2⟩

/-- Witness for C10: the first enemy of the level steps from 1200 to 1201.1
and stays inside the 1050 to 1500 patrol band. -/
def c10Enemy : EnemyState :=
  { x := 1200, y := 276, minX := 1050, maxX := 1500, speed := 1.1,
    etype := "Jubela", dir := 1, width := 32, height := 44 }

theorem c10_enemy_patrol_bounds_witness :
    c10Enemy.minX ≤ (stepEnemy c10Enemy).x ∧ (stepEnemy c10Enemy).x ≤ c10Enemy.maxX := by
  have h := c10_enemy_patrol_bounds c10Enemy (by norm_num [c10Enemy])
  exact ⟨h.1, h.2.1⟩

/-- Every ritual-pool question has id at least 101 and is not in the
review pool. -/
theorem questions_pool_disjoint (q : Question) (hq : q ∈ QUESTIONS) :
    101 ≤ q.id ∧ q ∉ REVIEW_QUESTIONS := by
  fin_cases hq <;> exact ⟨by decide, by decide⟩

set_option linter.unusedVariables false in
/-- C7: a PLAYING tick whose post-kinematics y exceeds `groundRefY + 520`
reaches GRAVE (no exception — the transition is total): the velocities and
the held-input flags are cleared, nothing is submitted, and the grave
question is drawn from the ritual pool (ids at least 101), never from the
per-orb review pool. -/
theorem c7_fatal_fall_to_grave (inp : TickInput) (st : GState)
    (hplay : st.gameState = GameState.PLAYING)
    (hmodal : st.modalState = ModalState.NONE)
    (hfall : groundRefY + 520 < (moveStep st).y) :
    (tick inp st).2 = none ∧
    (tick inp st).1.gameState = GameState.GRAVE ∧
    (tick inp st).1.player.vx = 0 ∧
    (tick inp st).1.player.vy = 0 ∧
    (tick inp st).1.keys = noKeys ∧
    ∃ q, (tick inp st).1.graveQuestion = some q ∧ q ∈ QUESTIONS ∧
      101 ≤ q.id ∧ q ∉ REVIEW_QUESTIONS := by
  have hT : tick inp st = (handleDeath inp.graveIdx { st with player := moveStep st }, none) := by
    unfold tick
    rw [if_pos hfall]
  have hD : handleDeath inp.graveIdx { st with player := moveStep st } =
      { st with
        player := { moveStep st with vx := 0, vy := 0 },
        graveQuestion := some (pickGraveQuestion inp.graveIdx),
        graveResult := none,
        keys := noKeys,
        gameState := GameState.GRAVE } := by
    unfold handleDeath
    rw [if_pos (by simpa using hplay)]
  rw [hT, hD]
  have hmem : pickGraveQuestion inp.graveIdx ∈ QUESTIONS := List.get_mem _ _ _
  have hpool := questions_pool_disjoint _ hmem
  exact ⟨rfl, rfl, rfl, rfl, rfl,
    ⟨pickGraveQuestion inp.graveIdx, rfl, hmem, hpool.1, hpool.2⟩⟩

/-- A state about to die from a fatal fall, for the C7 witness. -/
def c7State : GState :=
  { c5State with player := { initialPlayer with y := 900, vy := 3 } }

theorem c7_fatal_fall_to_grave_witness :
    (tick { graveIdx := 2, viewW := 800 } c7State).1.gameState = GameState.GRAVE ∧
    (tick { graveIdx := 2, viewW := 800 } c7State).2 = none := by
  have h := c7_fatal_fall_to_grave { graveIdx := 2, viewW := 800 } c7State rfl rfl
    (by norm_num [moveStep, accelInput, c7State, c5State, initialPlayer, noKeys,
      snapVx, applyFriction, clampSpeed, GRAVITY, groundRefY, DESIGN_HEIGHT])
  exact ⟨h.2.1, h.1⟩

set_option linter.unusedVariables false in
/-- C2 (amended): answering the grave question incorrectly records the
incorrect result, and the forced "Begin Again" restart (`resetGame false`)
empties the collected set, zeroes the score, reinitialises the camera, the
checkpoint, the seen-lore set, the enemies and the modal state, and resets
every player field to its initial value EXCEPT the facing direction, which
`resetPlayer` does not touch; the run restarts in PLAYING (the
START-equivalent fresh-run state).  The original claim's "player ...
reinitialized to their initial values" fails on `facing`
(`c2_grave_incorrect_counterexample`). -/
theorem c2_grave_incorrect_restart (ans : String) (st : GState) (q : Question)
    (hg : st.gameState = GameState.GRAVE)
    (hq : st.graveQuestion = some q)
    (hans : ans ≠ q.correctAnswer)
    (hw : st.player.width = 30)
    (hh : st.player.height = 44) :
    (answerGrave ans st).graveResult = some GraveResult.incorrect ∧
    (resetGame false (answerGrave ans st)).collectedIds = [] ∧
    (resetGame false (answerGrave ans st)).score = 0 ∧
    (resetGame false (answerGrave ans st)).player =
      { initialPlayer with facing := st.player.facing } ∧
    (resetGame false (answerGrave ans st)).camera = { x := 0, y := 0 } ∧
    (resetGame false (answerGrave ans st)).lastCheckpoint = { x := 60, y := 220 } ∧
    (resetGame false (answerGrave ans st)).seenLore = [] ∧
    (resetGame false (answerGrave ans st)).enemies = initEnemies ∧
    (resetGame false (answerGrave ans st)).modalState = ModalState.NONE ∧
    (resetGame false (answerGrave ans st)).gameState = GameState.PLAYING := by
  have hA : answerGrave ans st = { st with graveResult := some GraveResult.incorrect } := by
    unfold answerGrave
    rw [hq]
    simp only [if_neg hans]
  rw [hA]
  refine ⟨rfl, rfl, rfl, ?_, rfl, ?_, rfl, rfl, rfl, rfl⟩
  · show resetPlayer 60 (groundRefY - 100) st.player =
        { initialPlayer with facing := st.player.facing }
    unfold resetPlayer initialPlayer
    simp only [Player.mk.injEq, hw, hh]
    norm_num [groundRefY, DESIGN_HEIGHT]
  · show ({ x := 60, y := groundRefY - 100 } : Checkpoint) = _
    norm_num [groundRefY, DESIGN_HEIGHT]

/-- A GRAVE state whose player faces left, about to be answered wrongly. -/
def c2State : GState :=
  { gameState := GameState.GRAVE, modalState := ModalState.NONE,
    activeOrb := none, activeQuestion := none,
    graveQuestion := some (pickGraveQuestion 0), graveResult := none,
    score := 450, collectedIds := [1], warningMessage := none,
    seenLore := ["skirret"], keys := noKeys, jumpBuffer := 0,
    lastCheckpoint := { x := 1100, y := 268 }, camera := { x := 500, y := 0 },
    player := { initialPlayer with x := 1200, y := 900, facing := -1 },
    enemies := initEnemies }

/-- C2 counterexample: in `c2State` the player faces -1; answering the grave
question incorrectly and restarting yields a player record that still faces
-1 while the initial player faces 1 — so the player is NOT reinitialised to
its initial values, refuting the claim as stated. -/
theorem c2_grave_incorrect_counterexample :
    (answerGrave "To reveal the hidden mysteries of nature and science." c2State).graveResult
        = some GraveResult.incorrect ∧
    (resetGame false
        (answerGrave "To reveal the hidden mysteries of nature and science." c2State)).player
      ≠ initialPlayer ∧
    (resetGame false
        (answerGrave "To reveal the hidden mysteries of nature and science." c2State)).player.facing
      = -1 ∧
    initialPlayer.facing = 1 := by
  have hq : c2State.graveQuestion = some (pickGraveQuestion 0) := rfl
  have hcorr : (pickGraveQuestion 0).correctAnswer =
      "To teach us how to die and the knowledge of oneself." := rfl
  have hA : answerGrave "To reveal the hidden mysteries of nature and science." c2State =
      { c2State with graveResult := some GraveResult.incorrect } := by
    unfold answerGrave
    rw [hq]
    dsimp only
    rw [hcorr]
    rw [if_neg (by decide : ¬("To reveal the hidden mysteries of nature and science." =
      "To teach us how to die and the knowledge of oneself."))]
    rw [hq]
  rw [hA]
  refine ⟨rfl, ?_, rfl, rfl⟩
  intro hcontra
  have : ((-1 : Int)) = 1 := congrArg Player.facing hcontra
  exact absurd this (by decide)

theorem c2_grave_incorrect_restart_witness :
    (answerGrave "To reveal the hidden mysteries of nature and science." c2State).graveResult
      = some GraveResult.incorrect ∧
    (resetGame false
        (answerGrave "To reveal the hidden mysteries of nature and science." c2State)).collectedIds
      = [] ∧
    (resetGame false
        (answerGrave "To reveal the hidden mysteries of nature and science." c2State)).score
      = 0 ∧
    (resetGame false
        (answerGrave "To reveal the hidden mysteries of nature and science." c2State)).gameState
      = GameState.PLAYING := by
  have h := c2_grave_incorrect_restart
    "To reveal the hidden mysteries of nature and science." c2State
    (pickGraveQuestion 0) rfl rfl (by decide) rfl rfl
  exact ⟨h.1, h.2.1, h.2.2.1, h.2.2.2.2.2.2.2.2.2⟩


/-- A run: a full restart into PLAYING followed by the given stream of
ticks. -/
def runTrace (f : Nat → TickInput) (st0 : GState) : Nat → GState
  | 0 => resetGame false st0
  | n + 1 => (tick (f n) (runTrace f st0 n)).1

/-- One checkpoint comparison never moves the record backwards. -/
theorem checkStep_mono (p : Player) (acc : Checkpoint) (c : CheckpointDef) :
    acc.x ≤ (checkStep p acc c).x := by
  unfold checkStep
  split_ifs with h
  · exact le_of_lt h.2
  · exact le_rfl

/-- The checkpoint fold never moves the record backwards. -/
theorem checkFold_mono (p : Player) :
    ∀ (l : List CheckpointDef) (acc : Checkpoint),
      acc.x ≤ (l.foldl (checkStep p) acc).x := by
  intro l
  induction l with
  | nil => intro acc; exact le_rfl
  | cons c rest ih =>
    intro acc
    exact le_trans (checkStep_mono p acc c) (ih (checkStep p acc c))

/-- After the checkpoint fold the record either kept its x or moved to the x
of some checkpoint in the list that the player's x strictly exceeds. -/
theorem checkFold_cases (p : Player) :
    ∀ (l : List CheckpointDef) (acc : Checkpoint),
      (l.foldl (checkStep p) acc).x = acc.x ∨
      ∃ c ∈ l, (l.foldl (checkStep p) acc).x = c.x ∧ c.x < p.x := by
  intro l
  induction l with
  | nil => intro acc; exact Or.inl rfl
  | cons c rest ih =>
    intro acc
    rcases ih (checkStep p acc c) with h | ⟨c2, hc2, hx, hpx⟩
    · by_cases hcond : c.x < p.x ∧ acc.x < c.x
      · right
        refine ⟨c, List.mem_cons_self c rest, ?_, hcond.1⟩
        rw [List.foldl_cons, h]
        unfold checkStep
        rw [if_pos hcond]
      · left
        rw [List.foldl_cons, h]
        unfold checkStep
        rw [if_neg hcond]
    · right
      exact ⟨c2, List.mem_cons_of_mem c hc2, hx, hpx⟩

/-- `handleDeath` leaves the checkpoint record alone. -/
theorem handleDeath_cp (k : Nat) (s : GState) :
    (handleDeath k s).lastCheckpoint = s.lastCheckpoint := by
  unfold handleDeath
  split_ifs <;> rfl

/-- The orb trigger leaves the checkpoint record alone. -/
theorem orbTrigger_cp (orb : Orb) (s : GState) :
    (orbTrigger orb s).lastCheckpoint = s.lastCheckpoint := by
  unfold orbTrigger collectOrb
  dsimp only
  split_ifs with h
  · split
    · split <;> rfl
    · rfl
  · rfl

/-- The goal stage leaves the checkpoint record alone. -/
theorem tickGoal_cp (inp : TickInput) (s : GState) :
    ((tickGoal inp s).1).lastCheckpoint = s.lastCheckpoint := by
  unfold tickGoal updateCamera
  split_ifs <;> rfl

/-- The trigger stages leave the checkpoint record alone. -/
theorem tickTriggers_cp (inp : TickInput) (s : GState) :
    ((tickTriggers inp s).1).lastCheckpoint = s.lastCheckpoint := by
  unfold tickTriggers tickEnemies
  split
  · rw [orbTrigger_cp]
  · dsimp only
    split_ifs with h
    · rw [handleDeath_cp]
    · rw [tickGoal_cp]

/-- Over one tick the checkpoint record is either untouched (fatal fall) or
the result of the checkpoint fold on the post-kinematics player. -/
theorem tick_cp_eq (inp : TickInput) (st : GState) :
    ((tick inp st).1).lastCheckpoint = st.lastCheckpoint ∨
    ((tick inp st).1).lastCheckpoint = stepCheckpoints st.lastCheckpoint (moveStep st) := by
  unfold tick
  dsimp only
  split_ifs with h
  · left
    rw [handleDeath_cp]
  · right
    rw [tickTriggers_cp]

/-- One tick never moves the checkpoint record backwards. -/
theorem tick_cp_mono (inp : TickInput) (st : GState) :
    st.lastCheckpoint.x ≤ ((tick inp st).1).lastCheckpoint.x := by
  rcases tick_cp_eq inp st with h | h
  · rw [h]
  · rw [h]
    exact checkFold_mono (moveStep st) CHECKPOINTS st.lastCheckpoint

/-- Every checkpoint in the table lies at x at least 140. -/
theorem checkpoints_min_x (c : CheckpointDef) (hc : c ∈ CHECKPOINTS) : 140 ≤ c.x := by
  fin_cases hc <;> norm_num

/-- C6: along any run (a full reset followed by any stream of ticks), the
last-checkpoint x is non-decreasing, stays at least the level start x 60,
and is at all times either still 60 or the x of some checkpoint that the
player's post-kinematics x strictly exceeded on an earlier tick of the run
— hence never more than the largest checkpoint x passed so far. -/
theorem c6_checkpoint_monotone (f : Nat → TickInput) (st0 : GState)
    (i j : Nat) (hij : i ≤ j) :
    (runTrace f st0 i).lastCheckpoint.x ≤ (runTrace f st0 j).lastCheckpoint.x ∧
    60 ≤ (runTrace f st0 i).lastCheckpoint.x ∧
    ((runTrace f st0 i).lastCheckpoint.x = 60 ∨
      ∃ c ∈ CHECKPOINTS, (runTrace f st0 i).lastCheckpoint.x = c.x ∧
        ∃ k, k < i ∧ c.x < (moveStep (runTrace f st0 k)).x) := by
  have hstep : ∀ n, (runTrace f st0 n).lastCheckpoint.x ≤
      (runTrace f st0 (n + 1)).lastCheckpoint.x := by
    intro n
    exact tick_cp_mono (f n) (runTrace f st0 n)
  have hmono : ∀ a b, a ≤ b →
      (runTrace f st0 a).lastCheckpoint.x ≤ (runTrace f st0 b).lastCheckpoint.x := by
    intro a b hab
    induction b with
    | zero =>
      rw [Nat.le_zero.mp hab]
    | succ m ihm =>
      rcases Nat.le_succ_iff_eq_or_le.mp hab with h | h
      · rw [h]
      · exact le_trans (ihm h) (hstep m)
  have hbase : (runTrace f st0 0).lastCheckpoint.x = 60 := rfl
  have hlow : ∀ n, 60 ≤ (runTrace f st0 n).lastCheckpoint.x := by
    intro n
    calc (60 : ℚ) = (runTrace f st0 0).lastCheckpoint.x := hbase.symm
      _ ≤ (runTrace f st0 n).lastCheckpoint.x := hmono 0 n (Nat.zero_le n)
  have hupper : ∀ n, (runTrace f st0 n).lastCheckpoint.x = 60 ∨
      ∃ c ∈ CHECKPOINTS, (runTrace f st0 n).lastCheckpoint.x = c.x ∧
        ∃ k, k < n ∧ c.x < (moveStep (runTrace f st0 k)).x := by
    intro n
    induction n with
    | zero => exact Or.inl hbase
    | succ m ihm =>
      rcases tick_cp_eq (f m) (runTrace f st0 m) with h | h
      · rcases ihm with h0 | ⟨c, hc, hx, k, hk, hkx⟩
        · left
          rw [show runTrace f st0 (m + 1) = (tick (f m) (runTrace f st0 m)).1 from rfl, h, h0]
        · right
          refine ⟨c, hc, ?_, k, Nat.lt_succ_of_lt hk, hkx⟩
          rw [show runTrace f st0 (m + 1) = (tick (f m) (runTrace f st0 m)).1 from rfl, h, hx]
      · have hfold := checkFold_cases (moveStep (runTrace f st0 m)) CHECKPOINTS
          (runTrace f st0 m).lastCheckpoint
        have hR : (runTrace f st0 (m + 1)).lastCheckpoint.x =
            (CHECKPOINTS.foldl (checkStep (moveStep (runTrace f st0 m)))
              (runTrace f st0 m).lastCheckpoint).x := by
          rw [show runTrace f st0 (m + 1) = (tick (f m) (runTrace f st0 m)).1 from rfl, h]
          rfl
        rcases hfold with hsame | ⟨c, hc, hx, hpx⟩
        · rcases ihm with h0 | ⟨c, hc, hx, k, hk, hkx⟩
          · left
            rw [hR, hsame, h0]
          · right
            exact ⟨c, hc, by rw [hR, hsame, hx], k, Nat.lt_succ_of_lt hk, hkx⟩
        · right
          exact ⟨c, hc, by rw [hR, hx], m, Nat.lt_succ_self m, hpx⟩
  exact ⟨hmono i j hij, hlow i, hupper i⟩

/-- Witness for C6 at the trivial run prefix. -/
theorem c6_checkpoint_monotone_witness :
    (runTrace (fun _ => { graveIdx := 0, viewW := 800 }) c5State 0).lastCheckpoint.x ≤
      (runTrace (fun _ => { graveIdx := 0, viewW := 800 }) c5State 1).lastCheckpoint.x ∧
    60 ≤ (runTrace (fun _ => { graveIdx := 0, viewW := 800 }) c5State 0).lastCheckpoint.x ∧
    ((runTrace (fun _ => { graveIdx := 0, viewW := 800 }) c5State 0).lastCheckpoint.x = 60 ∨
      ∃ c ∈ CHECKPOINTS,
        (runTrace (fun _ => { graveIdx := 0, viewW := 800 }) c5State 0).lastCheckpoint.x = c.x ∧
        ∃ k, k < 0 ∧ c.x <
          (moveStep (runTrace (fun _ => { graveIdx := 0, viewW := 800 }) c5State k)).x) :=
  c6_checkpoint_monotone (fun _ => { graveIdx := 0, viewW := 800 }) c5State 0 1
    (by decide)

/-- Kinematics never changes the player's width. -/
theorem moveStep_width (st : GState) : (moveStep st).width = st.player.width := by
  unfold moveStep accelInput
  dsimp only
  split_ifs <;> rfl

/-- Kinematics never changes the player's height. -/
theorem moveStep_height (st : GState) : (moveStep st).height = st.player.height := by
  unfold moveStep accelInput
  dsimp only
  split_ifs <;> rfl

/-- The world clamp never changes y. -/
theorem clampWorldX_y (p : Player) : (clampWorldX p).y = p.y := by
  unfold clampWorldX
  dsimp only
  split_ifs <;> rfl

/-- The world clamp never changes width. -/
theorem clampWorldX_width (p : Player) : (clampWorldX p).width = p.width := by
  unfold clampWorldX
  dsimp only
  split_ifs <;> rfl

/-- The world clamp never changes height. -/
theorem clampWorldX_height (p : Player) : (clampWorldX p).height = p.height := by
  unfold clampWorldX
  dsimp only
  split_ifs <;> rfl

/-- One platform resolution never changes width. -/
theorem resolvePlat_width (p : Player) (pl : Platform) :
    (resolvePlat p pl).width = p.width := by
  unfold resolvePlat
  split_ifs <;> rfl

/-- One platform resolution never changes height. -/
theorem resolvePlat_height (p : Player) (pl : Platform) :
    (resolvePlat p pl).height = p.height := by
  unfold resolvePlat
  split_ifs <;> rfl

/-- The resolution fold never changes width. -/
theorem resolveList_width (l : List Platform) :
    ∀ p : Player, (resolveList p l).width = p.width := by
  induction l with
  | nil => intro p; rfl
  | cons pl rest ih =>
    intro p
    calc (resolveList (resolvePlat p pl) rest).width
        = (resolvePlat p pl).width := ih (resolvePlat p pl)
      _ = p.width := resolvePlat_width p pl

/-- The resolution fold never changes height. -/
theorem resolveList_height (l : List Platform) :
    ∀ p : Player, (resolveList p l).height = p.height := by
  induction l with
  | nil => intro p; rfl
  | cons pl rest ih =>
    intro p
    calc (resolveList (resolvePlat p pl) rest).height
        = (resolvePlat p pl).height := ih (resolvePlat p pl)
      _ = p.height := resolvePlat_height p pl

/-- The whole collision pass never changes width. -/
theorem resolveAll_width (p : Player) : (resolveAll p).width = p.width :=
  resolveList_width PLATFORMS { p with isGrounded := false }

/-- The whole collision pass never changes height. -/
theorem resolveAll_height (p : Player) : (resolveAll p).height = p.height :=
  resolveList_height PLATFORMS { p with isGrounded := false }

/-- The timer stage never moves the player. -/
theorem postCollision_x (p : Player) (jb : Nat) : ((postCollision p jb).1).x = p.x := by
  unfold postCollision executeJump
  dsimp only
  split_ifs <;> rfl

/-- The timer stage never moves the player vertically. -/
theorem postCollision_y (p : Player) (jb : Nat) : ((postCollision p jb).1).y = p.y := by
  unfold postCollision executeJump
  dsimp only
  split_ifs <;> rfl

/-- The timer stage never changes width. -/
theorem postCollision_width (p : Player) (jb : Nat) :
    ((postCollision p jb).1).width = p.width := by
  unfold postCollision executeJump
  dsimp only
  split_ifs <;> rfl

/-- The timer stage never changes height. -/
theorem postCollision_height (p : Player) (jb : Nat) :
    ((postCollision p jb).1).height = p.height := by
  unfold postCollision executeJump
  dsimp only
  split_ifs <;> rfl

/-- The whole physics phase never changes width. -/
theorem playerAfterPhys_width (st : GState) :
    (playerAfterPhys st).width = st.player.width := by
  unfold playerAfterPhys
  rw [postCollision_width, resolveAll_width, clampWorldX_width, moveStep_width]

/-- The whole physics phase never changes height. -/
theorem playerAfterPhys_height (st : GState) :
    (playerAfterPhys st).height = st.player.height := by
  unfold playerAfterPhys
  rw [postCollision_height, resolveAll_height, clampWorldX_height, moveStep_height]

/-- A platform entirely above-cut at the player's y does not touch it. -/
theorem resolvePlat_y_keep (p : Player) (pl : Platform)
    (h : pl.y + pl.height ≤ p.y) : resolvePlat p pl = p := by
  unfold resolvePlat
  rw [if_neg]
  intro hov
  exact absurd hov.2.2.1 (not_lt.mpr h)

/-- The resolution fold is the identity when every platform tops out at or
below the player's y. -/
theorem resolveList_y_keep (l : List Platform) :
    ∀ p : Player, (∀ pl ∈ l, pl.y + pl.height ≤ p.y) → resolveList p l = p := by
  induction l with
  | nil => intro p _; rfl
  | cons pl rest ih =>
    intro p h
    have h1 : resolvePlat p pl = p :=
      resolvePlat_y_keep p pl (h pl (List.mem_cons_self pl rest))
    show resolveList (resolvePlat p pl) rest = p
    rw [h1]
    exact ih p fun pl2 h2 => h pl2 (List.mem_cons_of_mem pl h2)

/-- Every platform of the level tops out at y at most 610. -/
theorem platforms_y_bound (pl : Platform) (h : pl ∈ PLATFORMS) :
    pl.y + pl.height ≤ 610 := by
  rw [PLATFORMS_eq] at h
  fin_cases h <;> norm_num

/-- Below the fatal-fall line nothing collides: the pass only clears the
grounded flag. -/
theorem resolveAll_y_keep (p : Player) (h : (610 : ℚ) ≤ p.y) :
    resolveAll p = { p with isGrounded := false } := by
  unfold resolveAll
  exact resolveList_y_keep PLATFORMS { p with isGrounded := false }
    fun pl hpl => le_trans (platforms_y_bound pl hpl) h

/-- One enemy patrol step never exceeds the patrol maximum when the patrol
interval is non-degenerate. -/
theorem stepEnemy_x_le_max (e : EnemyState) (h : e.minX ≤ e.maxX) :
    (stepEnemy e).x ≤ e.maxX := by
  unfold stepEnemy
  dsimp only
  split_ifs with h1 h2 h2
  · exact le_rfl
  · exact h
  · exact le_rfl
  · exact not_lt.mp h2

/-- One enemy patrol step never changes the enemy's width. -/
theorem stepEnemy_width_eq (e : EnemyState) : (stepEnemy e).width = e.width := by
  unfold stepEnemy
  dsimp only
  split_ifs <;> rfl

/-- When no stepped enemy touches the player, the enemy loop just steps the
whole list and reports no contact. -/
theorem stepEnemies_clear (p : Player) :
    ∀ l : List EnemyState, (∀ e ∈ l, ¬ enemyHitP p (stepEnemy e)) →
      stepEnemies p l = (l.map stepEnemy, false) := by
  intro l
  induction l with
  | nil => intro _; rfl
  | cons e rest ih =>
    intro h
    show (let e1 := stepEnemy e;
      if enemyHitP p e1 then (e1 :: rest, true)
      else
        let r := stepEnemies p rest
        (e1 :: r.1, r.2)) = _
    dsimp only
    rw [if_neg (h e (List.mem_cons_self e rest))]
    rw [ih fun e2 h2 => h e2 (List.mem_cons_of_mem e h2)]
    rfl

/-- The squared distance from a point at horizontal offset at least 41 is at
least 41 squared. -/
theorem sq_dist_far (a b : ℚ) (h : 41 ≤ a) : (1681 : ℚ) ≤ a ^ 2 + b ^ 2 := by
  nlinarith [sq_nonneg b, sq_nonneg (a - 41)]

/-- A player beyond x 4760 with the real player width is outside the trigger
radius of every orb of the level. -/
theorem findOrbHit_far (c : List Nat) (p : Player)
    (hw : p.width = 30) (hx : (4760 : ℚ) < p.x) :
    findOrbHit c p = none := by
  have hfar : ∀ o ∈ ORB_DATA, orbNearB p o = false := by
    intro o ho
    fin_cases ho
    · apply decide_eq_false
      simp only [orbSkirret, orbWorldY, groundRefY, DESIGN_HEIGHT, hw]
      intro hlt
      norm_num at hlt
      nlinarith [sq_nonneg (p.y + p.height / 2 - 300), sq_nonneg (p.x - 1165 - 3595)]
    · apply decide_eq_false
      simp only [orbPencil, orbWorldY, groundRefY, DESIGN_HEIGHT, hw]
      intro hlt
      norm_num at hlt
      nlinarith [sq_nonneg (p.y + p.height / 2 - 100), sq_nonneg (p.x - 1865 - 2895)]
    · apply decide_eq_false
      simp only [orbCompasses, orbWorldY, groundRefY, DESIGN_HEIGHT, hw]
      intro hlt
      norm_num at hlt
      nlinarith [sq_nonneg (p.y + p.height / 2 - 300), sq_nonneg (p.x - 3105 - 1655)]
    · apply decide_eq_false
      simp only [orbAcacia, orbWorldY, groundRefY, DESIGN_HEIGHT, hw]
      intro hlt
      norm_num at hlt
      nlinarith [sq_nonneg (p.y + p.height / 2 - 170), sq_nonneg (p.x - 4135 - 625)]
  unfold findOrbHit
  rw [show ORB_DATA = [orbSkirret, orbPencil, orbCompasses, orbAcacia] from rfl]
  simp only [List.find?,
    hfar orbSkirret (by simp [ORB_DATA]),
    hfar orbPencil (by simp [ORB_DATA]),
    hfar orbCompasses (by simp [ORB_DATA]),
    hfar orbAcacia (by simp [ORB_DATA]),
    Bool.and_false]

/-- The camera update changes nothing but the camera. -/
theorem updateCamera_gameState (v : ℚ) (s : GState) :
    (updateCamera v s).gameState = s.gameState := rfl

/-- The camera update leaves the warning message alone. -/
theorem updateCamera_warning (v : ℚ) (s : GState) :
    (updateCamera v s).warningMessage = s.warningMessage := rfl

set_option linter.unusedVariables false in
/-- C1: a PLAYING tick whose post-physics player is near the goal: with
every required tool id collected, the state becomes VICTORY and the score
submitted to the leaderboard is the running score plus the fixed 500 bonus;
with some tool missing, the state stays PLAYING, nothing is submitted, and
the sealed-East warning is set exactly when no warning is already showing.
The enemy hypothesis states the patrol data of the level (patrol intervals
within x 3400, width 32), which every reachable enemy list satisfies. -/
theorem c1_goal_check (inp : TickInput) (st : GState)
    (hplay : st.gameState = GameState.PLAYING)
    (hmodal : st.modalState = ModalState.NONE)
    (hw : st.player.width = 30)
    (he : ∀ e ∈ st.enemies, e.minX ≤ e.maxX ∧ e.maxX ≤ 3400 ∧ e.width = 32)
    (hnear : nearGoalP (playerAfterPhys st)) :
    (hasTools st.collectedIds = true →
      (tick inp st).1.gameState = GameState.VICTORY ∧
      (tick inp st).2 = some (st.score + 500)) ∧
    (hasTools st.collectedIds = false →
      (tick inp st).1.gameState = GameState.PLAYING ∧
      (tick inp st).2 = none ∧
      (st.warningMessage = none → (tick inp st).1.warningMessage = some sealedMsg) ∧
      (st.warningMessage ≠ none → (tick inp st).1.warningMessage = st.warningMessage)) := by
  have hx4 : (4760 : ℚ) < (playerAfterPhys st).x := by
    have h1 := hnear.1
    rw [abs_lt] at h1
    have := h1.1
    norm_num [GOAL_X] at this
    linarith
  have hy4 : (playerAfterPhys st).y < 360 := by
    have h2 := hnear.2
    rw [abs_lt] at h2
    have := h2.2
    norm_num [groundRefY, DESIGN_HEIGHT, GOAL_Y_OFFSET] at this
    linarith
  have hfall : ¬ (groundRefY + 520 < (moveStep st).y) := by
    intro hcontra
    have h840 : (840 : ℚ) < (moveStep st).y := by
      norm_num [groundRefY, DESIGN_HEIGHT] at hcontra
      linarith
    have hyc : (clampWorldX (moveStep st)).y = (moveStep st).y := clampWorldX_y _
    have h610 : (610 : ℚ) ≤ (clampWorldX (moveStep st)).y := by
      rw [hyc]; linarith
    have hres := resolveAll_y_keep (clampWorldX (moveStep st)) h610
    have hy : (playerAfterPhys st).y = (moveStep st).y := by
      unfold playerAfterPhys
      rw [postCollision_y, hres]
      exact hyc
    rw [hy] at hy4
    linarith
  have htick : tick inp st = tickTriggers inp
      { st with
        player := playerAfterPhys st,
        lastCheckpoint := stepCheckpoints st.lastCheckpoint (moveStep st),
        jumpBuffer := (postCollision (resolveAll (clampWorldX (moveStep st))) st.jumpBuffer).2 } := by
    unfold tick playerAfterPhys
    dsimp only
    rw [if_neg hfall]
  have horb : findOrbHit st.collectedIds (playerAfterPhys st) = none :=
    findOrbHit_far _ _ (by rw [playerAfterPhys_width]; exact hw) hx4
  have henemies : stepEnemies (playerAfterPhys st) st.enemies =
      (st.enemies.map stepEnemy, false) := by
    apply stepEnemies_clear
    intro e heMem hhit
    obtain ⟨hminmax, hmax, hwidth⟩ := he e heMem
    have h1 : (stepEnemy e).x ≤ 3400 := le_trans (stepEnemy_x_le_max e hminmax) hmax
    have h2 : (stepEnemy e).width = 32 := by rw [stepEnemy_width_eq]; exact hwidth
    have h3 := hhit.1
    rw [h2] at h3
    linarith
  have hgoal : tick inp st = tickGoal inp
      { st with
        player := playerAfterPhys st,
        lastCheckpoint := stepCheckpoints st.lastCheckpoint (moveStep st),
        jumpBuffer := (postCollision (resolveAll (clampWorldX (moveStep st))) st.jumpBuffer).2,
        enemies := st.enemies.map stepEnemy } := by
    rw [htick]
    unfold tickTriggers tickEnemies
    dsimp only
    rw [horb, henemies]
    rfl
  refine ⟨fun hT => ?_, fun hF => ?_⟩
  · rw [hgoal]
    unfold tickGoal
    dsimp only
    rw [if_pos hnear, if_pos hT]
    exact ⟨rfl, rfl⟩
  · rw [hgoal]
    unfold tickGoal
    dsimp only
    rw [if_pos hnear, if_neg (by rw [hF]; exact Bool.false_ne_true)]
    refine ⟨?_, rfl, ?_, ?_⟩
    · rw [updateCamera_gameState]
      split_ifs <;> exact hplay
    · intro hwn
      rw [updateCamera_warning, if_pos (by rw [hwn]; rfl)]
    · intro hws
      rw [updateCamera_warning,
        if_neg (by simp only [Option.isNone_iff_eq_none]; exact hws)]

/-- The initial enemy list written out, for concrete evaluations. -/
theorem initEnemies_eq : initEnemies =
    [ { x := 1200, y := 276, minX := 1050, maxX := 1500, speed := 1.1,
        etype := "Jubela", dir := 1, width := 32, height := 44 },
      { x := 1850, y := 46, minX := 1700, maxX := 2050, speed := 0.9,
        etype := "Jubelo", dir := 1, width := 32, height := 44 },
      { x := 3100, y := 276, minX := 2950, maxX := 3400, speed := 1.6,
        etype := "Jubelum", dir := 1, width := 32, height := 44 } ] := by
  norm_num [initEnemies, ENEMY_DATA, groundRefY, DESIGN_HEIGHT]

/-- A PLAYING state hovering at the goal seat with all three tools. -/
def c1State : GState :=
  { gameState := GameState.PLAYING, modalState := ModalState.NONE,
    activeOrb := none, activeQuestion := none, graveQuestion := none,
    graveResult := none, score := 450, collectedIds := [1, 2, 3],
    warningMessage := none, seenLore := ["skirret", "pencil", "compasses"],
    keys := noKeys, jumpBuffer := 0,
    lastCheckpoint := { x := 4200, y := 268 }, camera := { x := 4000, y := 0 },
    player := { initialPlayer with x := 4790, y := 235.55 },
    enemies := initEnemies }

set_option maxRecDepth 8000 in
set_option maxHeartbeats 1000000 in
theorem c1_goal_check_witness :
    hasTools c1State.collectedIds = true ∧
    (tick { graveIdx := 0, viewW := 800 } c1State).1.gameState = GameState.VICTORY ∧
    (tick { graveIdx := 0, viewW := 800 } c1State).2 = some (c1State.score + 500) := by
  have hphys : playerAfterPhys c1State =
      { x := 4790, y := 236, width := 30, height := 44, vx := 0, vy := 0.45,
        isGrounded := false, facing := 1, jumpCount := 0, coyoteTimer := 0 } := by
    unfold playerAfterPhys resolveAll resolveList
    rw [PLATFORMS_eq]
    norm_num [moveStep, accelInput, clampWorldX, postCollision, executeJump,
      List.foldl, resolvePlat, aabbOverlapP, overlapX, overlapY,
      c1State, initialPlayer, noKeys, snapVx, applyFriction, clampSpeed,
      MOVE_SPEED, FRICTION, GRAVITY, WORLD_WIDTH,
      abs_lt, abs_of_neg, abs_of_nonneg]
  have hnear : nearGoalP (playerAfterPhys c1State) := by
    rw [hphys]
    norm_num [nearGoalP, GOAL_X, GOAL_Y_OFFSET, groundRefY, DESIGN_HEIGHT, abs_lt]
  have he : ∀ e ∈ c1State.enemies, e.minX ≤ e.maxX ∧ e.maxX ≤ 3400 ∧ e.width = 32 := by
    intro e hmem
    have hmem2 : e ∈ initEnemies := hmem
    rw [initEnemies_eq] at hmem2
    fin_cases hmem2 <;> norm_num
  have h := c1_goal_check { graveIdx := 0, viewW := 800 } c1State rfl rfl rfl he hnear
  have hT : hasTools c1State.collectedIds = true := by decide
  exact ⟨hT, (h.1 hT).1, (h.1 hT).2⟩

/-- The review question with id 1 (the head of the review pool). -/
def reviewQuestion1 : Question :=
  { id := 1,
    text := "What are the working tools of a Master Mason?",
    answers := [ "The Skirret, the Pencil, and the Compasses.",
                 "The Square, the Level, and the Plumb Rule.",
                 "The 24 inch gauge and the common gavel." ],
    correctAnswer := "The Skirret, the Pencil, and the Compasses.",
    category := "review" }

set_option linter.unusedVariables false in
/-- C4: a PLAYING tick that touches orb 1 (Skirret, 150 points) for the
first time with its lore unseen opens the LORE modal with that orb pending;
acknowledging the lore routes to the QUIZ modal with review question id 1;
answering it correctly adds 1 to the collected set, adds exactly 150 to the
score and closes the modal. -/
theorem c4_skirret_collection (inp : TickInput) (st : GState)
    (hplay : st.gameState = GameState.PLAYING)
    (hmodal : st.modalState = ModalState.NONE)
    (hw : st.player.width = 30)
    (hh : st.player.height = 44)
    (hcol : st.collectedIds.contains 1 = false)
    (hseen : st.seenLore.contains "skirret" = false)
    (hnear : orbNearB (playerAfterPhys st) orbSkirret = true) :
    (tick inp st).2 = none ∧
    (tick inp st).1.modalState = ModalState.LORE ∧
    (tick inp st).1.activeOrb = some orbSkirret ∧
    (handleLoreContinue (tick inp st).1).modalState = ModalState.QUIZ ∧
    (handleLoreContinue (tick inp st).1).activeQuestion = some reviewQuestion1 ∧
    reviewQuestion1.id = 1 ∧
    (handleQuizCorrect (handleLoreContinue (tick inp st).1)).collectedIds =
      1 :: st.collectedIds ∧
    (handleQuizCorrect (handleLoreContinue (tick inp st).1)).score = st.score + 150 ∧
    (handleQuizCorrect (handleLoreContinue (tick inp st).1)).modalState =
      ModalState.NONE := by
  have hw4 : (playerAfterPhys st).width = 30 := by
    rw [playerAfterPhys_width]; exact hw
  have hh4 : (playerAfterPhys st).height = 44 := by
    rw [playerAfterPhys_height]; exact hh
  have hlt := of_decide_eq_true hnear
  rw [hw4, hh4] at hlt
  simp only [orbSkirret, orbWorldY, groundRefY, DESIGN_HEIGHT] at hlt
  norm_num at hlt
  have hy4 : (playerAfterPhys st).y < 319 := by
    nlinarith [sq_nonneg ((playerAfterPhys st).x + 30 / 2 - 1180),
      sq_nonneg ((playerAfterPhys st).y + 44 / 2 - 300 - 41)]
  have hfall : ¬ (groundRefY + 520 < (moveStep st).y) := by
    intro hcontra
    have h840 : (840 : ℚ) < (moveStep st).y := by
      norm_num [groundRefY, DESIGN_HEIGHT] at hcontra
      linarith
    have hyc : (clampWorldX (moveStep st)).y = (moveStep st).y := clampWorldX_y _
    have h610 : (610 : ℚ) ≤ (clampWorldX (moveStep st)).y := by
      rw [hyc]; linarith
    have hres := resolveAll_y_keep (clampWorldX (moveStep st)) h610
    have hy : (playerAfterPhys st).y = (moveStep st).y := by
      unfold playerAfterPhys
      rw [postCollision_y, hres]
      exact hyc
    rw [hy] at hy4
    linarith
  have htick : tick inp st = tickTriggers inp
      { st with
        player := playerAfterPhys st,
        lastCheckpoint := stepCheckpoints st.lastCheckpoint (moveStep st),
        jumpBuffer := (postCollision (resolveAll (clampWorldX (moveStep st))) st.jumpBuffer).2 } := by
    unfold tick playerAfterPhys
    dsimp only
    rw [if_neg hfall]
  have hfind : findOrbHit st.collectedIds (playerAfterPhys st) = some orbSkirret := by
    unfold findOrbHit
    rw [show ORB_DATA = [orbSkirret, orbPencil, orbCompasses, orbAcacia] from rfl]
    simp only [List.find?, show orbSkirret.id = 1 from rfl, hcol, hnear,
      Bool.not_false, Bool.and_self]
  have horbT : tick inp st =
      (orbTrigger orbSkirret
        { st with
          player := playerAfterPhys st,
          lastCheckpoint := stepCheckpoints st.lastCheckpoint (moveStep st),
          jumpBuffer := (postCollision (resolveAll (clampWorldX (moveStep st))) st.jumpBuffer).2 },
       none) := by
    rw [htick]
    unfold tickTriggers
    dsimp only
    rw [hfind]
  have hLore : orbTrigger orbSkirret
      { st with
        player := playerAfterPhys st,
        lastCheckpoint := stepCheckpoints st.lastCheckpoint (moveStep st),
        jumpBuffer := (postCollision (resolveAll (clampWorldX (moveStep st))) st.jumpBuffer).2 } =
      { st with
        player := { playerAfterPhys st with vx := 0, vy := 0 },
        keys := noKeys,
        activeOrb := some orbSkirret,
        lastCheckpoint := stepCheckpoints st.lastCheckpoint (moveStep st),
        jumpBuffer := (postCollision (resolveAll (clampWorldX (moveStep st))) st.jumpBuffer).2,
        modalState := ModalState.LORE } := by
    unfold orbTrigger
    dsimp only
    rw [if_neg (by
      rw [show orbSkirret.spriteKey = "skirret" from rfl, hseen]
      exact Bool.false_ne_true)]
  have hfq : List.find? (fun q => q.id = 1) REVIEW_QUESTIONS = some reviewQuestion1 := rfl
  have hLC : handleLoreContinue
      { st with
        player := { playerAfterPhys st with vx := 0, vy := 0 },
        keys := noKeys,
        activeOrb := some orbSkirret,
        lastCheckpoint := stepCheckpoints st.lastCheckpoint (moveStep st),
        jumpBuffer := (postCollision (resolveAll (clampWorldX (moveStep st))) st.jumpBuffer).2,
        modalState := ModalState.LORE } =
      { st with
        player := { playerAfterPhys st with vx := 0, vy := 0 },
        keys := noKeys,
        activeOrb := some orbSkirret,
        lastCheckpoint := stepCheckpoints st.lastCheckpoint (moveStep st),
        jumpBuffer := (postCollision (resolveAll (clampWorldX (moveStep st))) st.jumpBuffer).2,
        seenLore := setAddStr st.seenLore "skirret",
        activeQuestion := some reviewQuestion1,
        modalState := ModalState.QUIZ } := by
    unfold handleLoreContinue
    dsimp only
    rw [show orbSkirret.questionId = some 1 from rfl]
    dsimp only
    rw [hfq]
    rfl
  have hQC : handleQuizCorrect
      { st with
        player := { playerAfterPhys st with vx := 0, vy := 0 },
        keys := noKeys,
        activeOrb := some orbSkirret,
        lastCheckpoint := stepCheckpoints st.lastCheckpoint (moveStep st),
        jumpBuffer := (postCollision (resolveAll (clampWorldX (moveStep st))) st.jumpBuffer).2,
        seenLore := setAddStr st.seenLore "skirret",
        activeQuestion := some reviewQuestion1,
        modalState := ModalState.QUIZ } =
      { st with
        player := { playerAfterPhys st with vx := 0, vy := 0 },
        keys := noKeys,
        activeOrb := none,
        activeQuestion := none,
        lastCheckpoint := stepCheckpoints st.lastCheckpoint (moveStep st),
        jumpBuffer := (postCollision (resolveAll (clampWorldX (moveStep st))) st.jumpBuffer).2,
        seenLore := setAddStr st.seenLore "skirret",
        collectedIds := setAddNat st.collectedIds 1,
        score := st.score + 150,
        modalState := ModalState.NONE } := by
    unfold handleQuizCorrect collectOrb
    dsimp only
    rfl
  have hAdd : setAddNat st.collectedIds 1 = 1 :: st.collectedIds := by
    unfold setAddNat
    rw [if_neg (by rw [hcol]; exact Bool.false_ne_true)]
  rw [horbT]
  dsimp only
  rw [hLore, hLC, hQC]
  exact ⟨rfl, rfl, rfl, rfl, rfl, rfl, hAdd, rfl, rfl⟩

/-- A PLAYING fresh-run state standing just left of the Skirret orb. -/
def c4State : GState :=
  { gameState := GameState.PLAYING, modalState := ModalState.NONE,
    activeOrb := none, activeQuestion := none, graveQuestion := none,
    graveResult := none, score := 0, collectedIds := [], warningMessage := none,
    seenLore := [], keys := noKeys, jumpBuffer := 0,
    lastCheckpoint := { x := 60, y := 220 }, camera := { x := 0, y := 0 },
    player := { initialPlayer with x := 1165, y := 277 },
    enemies := initEnemies }

set_option maxRecDepth 8000 in
set_option maxHeartbeats 1000000 in
theorem c4_skirret_collection_witness :
    (tick { graveIdx := 0, viewW := 800 } c4State).1.modalState = ModalState.LORE ∧
    (handleQuizCorrect (handleLoreContinue
        (tick { graveIdx := 0, viewW := 800 } c4State).1)).collectedIds = [1] ∧
    (handleQuizCorrect (handleLoreContinue
        (tick { graveIdx := 0, viewW := 800 } c4State).1)).score = 150 := by
  have hphys : playerAfterPhys c4State =
      { x := 1165, y := 276, width := 30, height := 44, vx := 0, vy := 0,
        isGrounded := true, facing := 1, jumpCount := 0, coyoteTimer := 6 } := by
    unfold playerAfterPhys resolveAll resolveList
    rw [PLATFORMS_eq]
    norm_num [moveStep, accelInput, clampWorldX, postCollision, executeJump,
      List.foldl, resolvePlat, aabbOverlapP, overlapX, overlapY,
      c4State, initialPlayer, noKeys, snapVx, applyFriction, clampSpeed,
      MOVE_SPEED, FRICTION, GRAVITY, WORLD_WIDTH,
      abs_lt, abs_of_neg, abs_of_nonneg]
  have hnear : orbNearB (playerAfterPhys c4State) orbSkirret = true := by
    rw [hphys]
    norm_num [orbNearB, orbSkirret, orbWorldY, groundRefY, DESIGN_HEIGHT]
  have h := c4_skirret_collection { graveIdx := 0, viewW := 800 } c4State
    rfl rfl rfl rfl (by decide) (by decide) hnear
  exact ⟨h.2.1, h.2.2.2.2.2.2.1, h.2.2.2.2.2.2.2.1⟩
